import Mathlib

/-!
Verification development for the error taxonomy of a Supabase
authentication client (source: src/error.rs).

The development shallowly embeds the Rust module: the JSON value type of
the codec layer, the remote error payload `SupabaseHTTPError` together
with its Display rendering and its serde (de)serialization at the level
of the JSON data model, the taxonomy enum `Error` with its thiserror
generated Display strings and source chain, and the four From
conversions that lift foreign errors into the taxonomy.
-/

namespace SupabaseAuth

/-!
A model of serde_json::Value. Arrays and objects are given by their own
mutually defined list types so that every function below is structurally
recursive and reduces inside the kernel. Numbers are restricted to
integers, which covers every numeric field of the payload (the only
numeric field, `code`, has Rust type i32).
-/

mutual

inductive Json where
  | null : Json
  | bool (b : Bool) : Json
  | num (n : Int) : Json
  | str (s : String) : Json
  | arr (elems : JsonArr) : Json
  | obj (fields : JsonObj) : Json

inductive JsonArr where
  | nil : JsonArr
  | cons (hd : Json) (tl : JsonArr) : JsonArr

inductive JsonObj where
  | nil : JsonObj
  | cons (key : String) (val : Json) (tl : JsonObj) : JsonObj

end

/-- Hexadecimal digit used by the \u00XX escapes of the JSON encoder. -/
def hexDigit (n : Nat) : Char :=
  if n < 10 then Char.ofNat (48 + n) else Char.ofNat (87 + n)

/-- Escape of one character inside a JSON string literal, following the
encoder of serde_json: quote and backslash are escaped, control
characters below 0x20 use the short escapes b, t, n, f, r when they
exist and \u00XX otherwise. -/
def escapeChar (c : Char) : List Char :=
  if c = '"' then ['\\', '"']
  else if c = '\\' then ['\\', '\\']
  else if c = Char.ofNat 8 then ['\\', 'b']
  else if c = Char.ofNat 9 then ['\\', 't']
  else if c = Char.ofNat 10 then ['\\', 'n']
  else if c = Char.ofNat 12 then ['\\', 'f']
  else if c = Char.ofNat 13 then ['\\', 'r']
  else if c.toNat < 32 then
    ['\\', 'u', '0', '0', hexDigit (c.toNat / 16), hexDigit (c.toNat % 16)]
  else [c]

/-- Escape of the characters of a JSON string body. -/
def escapeList : List Char → List Char
  | [] => []
  | c :: cs => escapeChar c ++ escapeList cs

/-- A JSON string literal: quoted and escaped, as serde_json prints it. -/
def renderString (s : String) : String :=
  String.mk ('"' :: escapeList s.data ++ ['"'])

mutual

/-- Compact rendering of a JSON value: the Display implementation of
serde_json::Value, used by the Rust code when a value is interpolated
into a format string. -/
def Json.render : Json → String
  | .null => "null"
  | .bool b => if b then "true" else "false"
  | .num n => toString n
  | .str s => renderString s
  | .arr elems => "[" ++ JsonArr.render elems ++ "]"
  | .obj fields => "\x7b" ++ JsonObj.render fields ++ "\x7d"

/-- Comma separated rendering of the elements of a JSON array. -/
def JsonArr.render : JsonArr → String
  | .nil => ""
  | .cons hd .nil => hd.render
  | .cons hd (.cons hd2 tl) => hd.render ++ "," ++ JsonArr.render (.cons hd2 tl)

/-- Comma separated rendering of the members of a JSON object. -/
def JsonObj.render : JsonObj → String
  | .nil => ""
  | .cons k v .nil => renderString k ++ ":" ++ v.render
  | .cons k v (.cons k2 v2 tl) =>
      renderString k ++ ":" ++ v.render ++ "," ++ JsonObj.render (.cons k2 v2 tl)

end

/-- Keys of a JSON object, in order. -/
def JsonObj.keys : JsonObj → List String
  | .nil => []
  | .cons k _ tl => k :: JsonObj.keys tl

/-- Whether a JSON object has a member with the given key. -/
def JsonObj.hasKey : JsonObj → String → Bool
  | .nil, _ => false
  | .cons k _ tl, key => if k = key then true else JsonObj.hasKey tl key

/-- Concatenation of two member lists. -/
def JsonObj.append : JsonObj → JsonObj → JsonObj
  | .nil, b => b
  | .cons k v tl, b => .cons k v (JsonObj.append tl b)

/-- Whether a JSON value is the null value. -/
def Json.isNull : Json → Bool
  | .null => true
  | _ => false

/-!
The remote error payload, struct SupabaseHTTPError of src/error.rs. Its
Rust fields, in declaration order: code of type i32; error_code of type
Option of String, skipped on serialization when absent; message of type
String, renamed to the wire key msg; internal_error and then
internal_message, each of type Option of serde_json::Value and skipped
when absent; error_id of type Option of String, skipped when absent.
The i32 field is modelled as an Int; the bound that the Rust type
guarantees is carried as a hypothesis where it matters.
-/

structure SupabaseHTTPError where
  code : Int
  error_code : Option String
  message : String
  internal_error : Option Json
  internal_message : Option Json
  error_id : Option String

/-- Display for SupabaseHTTPError, transcribed from the fmt method in
src/error.rs: the status-code line with its two optional same-line
segments, the two optional internal lines, then always the message
line. Optional serde_json values are interpolated with their Display
form, i.e. their compact JSON rendering. -/
def SupabaseHTTPError.display (e : SupabaseHTTPError) : String :=
  "Status Code " ++ toString e.code
  ++ (match e.error_code with
      | some error_code => " (" ++ error_code ++ ")"
      | none => "")
  ++ (match e.error_id with
      | some error_id => " [Error ID: " ++ error_id ++ "]"
      | none => "")
  ++ (match e.internal_message with
      | some internal_message => "\nInternal message: " ++ internal_message.render
      | none => "")
  ++ (match e.internal_error with
      | some internal_error => "\nInternal error: " ++ internal_error.render
      | none => "")
  ++ "\nMessage: " ++ e.message

/-!
Foreign error types wrapped by the taxonomy. The taxonomy treats each as
a black box: it stores the value and never inspects it, so each is
modelled as an opaque carrier faithful to that use. VarError keeps the
two variants of std::env::VarError.
-/

/-- Model of reqwest::Error, the transport-layer error. -/
structure ReqwestError where
  message : String

/-- Model of serde_json::Error, the JSON codec error. -/
structure SerdeJsonError where
  message : String

/-- Model of reqwest::header::InvalidHeaderValue, the header
construction error. -/
structure InvalidHeaderValueError where
  message : String

/-- Model of std::env::VarError, the environment lookup error. -/
inductive VarError where
  | NotPresent : VarError
  | NotUnicode (lossy : String) : VarError

/-- Canonical reason phrase table of the http crate (used by
reqwest::StatusCode): the reason phrase it associates with each
registered status code. -/
def canonicalReason (c : Nat) : Option String :=
  match c with
  | 100 => some "Continue"
  | 101 => some "Switching Protocols"
  | 102 => some "Processing"
  | 200 => some "OK"
  | 201 => some "Created"
  | 202 => some "Accepted"
  | 203 => some "Non-Authoritative Information"
  | 204 => some "No Content"
  | 205 => some "Reset Content"
  | 206 => some "Partial Content"
  | 207 => some "Multi-Status"
  | 208 => some "Already Reported"
  | 226 => some "IM Used"
  | 300 => some "Multiple Choices"
  | 301 => some "Moved Permanently"
  | 302 => some "Found"
  | 303 => some "See Other"
  | 304 => some "Not Modified"
  | 305 => some "Use Proxy"
  | 307 => some "Temporary Redirect"
  | 308 => some "Permanent Redirect"
  | 400 => some "Bad Request"
  | 401 => some "Unauthorized"
  | 402 => some "Payment Required"
  | 403 => some "Forbidden"
  | 404 => some "Not Found"
  | 405 => some "Method Not Allowed"
  | 406 => some "Not Acceptable"
  | 407 => some "Proxy Authentication Required"
  | 408 => some "Request Timeout"
  | 409 => some "Conflict"
  | 410 => some "Gone"
  | 411 => some "Length Required"
  | 412 => some "Precondition Failed"
  | 413 => some "Payload Too Large"
  | 414 => some "URI Too Long"
  | 415 => some "Unsupported Media Type"
  | 416 => some "Range Not Satisfiable"
  | 417 => some "Expectation Failed"
  | 418 => some "I\x27m a teapot"
  | 421 => some "Misdirected Request"
  | 422 => some "Unprocessable Entity"
  | 423 => some "Locked"
  | 424 => some "Failed Dependency"
  | 426 => some "Upgrade Required"
  | 428 => some "Precondition Required"
  | 429 => some "Too Many Requests"
  | 431 => some "Request Header Fields Too Large"
  | 451 => some "Unavailable For Legal Reasons"
  | 500 => some "Internal Server Error"
  | 501 => some "Not Implemented"
  | 502 => some "Bad Gateway"
  | 503 => some "Service Unavailable"
  | 504 => some "Gateway Timeout"
  | 505 => some "HTTP Version Not Supported"
  | 506 => some "Variant Also Negotiates"
  | 507 => some "Insufficient Storage"
  | 508 => some "Loop Detected"
  | 510 => some "Not Extended"
  | 511 => some "Network Authentication Required"
  | _ => none

/-- Model of http::StatusCode (re-exported by reqwest), carrying the
numeric code. -/
structure StatusCode where
  code : Nat

/-- Display for http::StatusCode: the numeric code, a space, then the
canonical reason phrase, with a fixed placeholder when the code has no
canonical reason. -/
def StatusCode.display (s : StatusCode) : String :=
  toString s.code ++ " "
    ++ (match canonicalReason s.code with
        | some reason => reason
        | none => "<unknown status code>")

/-!
The taxonomy enum. Rust declaration (src/error.rs) with the thiserror
display attribute of each variant recorded next to it in Error.display
below.
-/

inductive Error where
  | AlreadySignedUp : Error
  | WrongCredentials : Error
  | UserNotFound : Error
  | NotAuthenticated : Error
  | MissingRefreshToken : Error
  | WrongToken : Error
  | InternalError : Error
  | NetworkError (e : ReqwestError) : Error
  | ParseError (e : SerdeJsonError) : Error
  | InvalidHeaderValue (e : InvalidHeaderValueError) : Error
  | InvalidEnvironmentVariable (e : VarError) : Error
  | ParseUrlError : Error
  | Supabase (payload : SupabaseHTTPError) : Error
  | AuthError (status : StatusCode) (message : String) : Error

/-- Display for Error, generated by thiserror from the error attribute
of each variant. Interpolated fields use their Display form: the
Supabase variant prints its payload verbatim, the AuthError variant
interpolates the StatusCode Display form between the fixed pieces. -/
def Error.display : Error → String
  | .AlreadySignedUp => "User Already Exists"
  | .WrongCredentials => "Invalid Credentials"
  | .UserNotFound => "User Not Found"
  | .NotAuthenticated => "Supabase Client not Authenticated"
  | .MissingRefreshToken => "Missing Refresh Token"
  | .WrongToken => "JWT Is Invalid"
  | .InternalError => "Internal Error"
  | .NetworkError _ => "Network Error"
  | .ParseError _ => "Failed to Parse"
  | .InvalidHeaderValue _ => "Header Value is Invalid"
  | .InvalidEnvironmentVariable _ => "Environment Variable Unreadable"
  | .ParseUrlError => "Failed to parse URL"
  | .Supabase payload => payload.display
  | .AuthError status message => "Error: " ++ status.display ++ ": " ++ message

/-- The possible causes stored in the source chain of the taxonomy: one
per foreign error kind lifted with a from attribute. -/
inductive Cause where
  | reqwest (e : ReqwestError) : Cause
  | serdeJson (e : SerdeJsonError) : Cause
  | header (e : InvalidHeaderValueError) : Cause
  | envVar (e : VarError) : Cause

/-- The source method generated by thiserror: the four variants whose
field carries a from attribute expose that field as the underlying
cause; every other variant has no source. -/
def Error.sourceCause : Error → Option Cause
  | .NetworkError e => some (.reqwest e)
  | .ParseError e => some (.serdeJson e)
  | .InvalidHeaderValue e => some (.header e)
  | .InvalidEnvironmentVariable e => some (.envVar e)
  | _ => none

/-- From<reqwest::Error> generated by the from attribute on
NetworkError. -/
def Error.fromReqwest (e : ReqwestError) : Error := .NetworkError e

/-- From<serde_json::Error> generated by the from attribute on
ParseError. -/
def Error.fromSerdeJson (e : SerdeJsonError) : Error := .ParseError e

/-- From<InvalidHeaderValue> generated by the from attribute on
InvalidHeaderValue. -/
def Error.fromInvalidHeaderValue (e : InvalidHeaderValueError) : Error :=
  .InvalidHeaderValue e

/-- From<env::VarError> generated by the from attribute on
InvalidEnvironmentVariable. -/
def Error.fromVarError (e : VarError) : Error :=
  .InvalidEnvironmentVariable e

/-!
Serialization, as derived by serde for the struct: members are emitted
in field declaration order, the message field under the wire key msg,
and each optional field is skipped when it is none
(skip_serializing_if = "Option::is_none"). A present Option value
serializes as its content (Some(Value::Null) therefore serializes as
null).
-/

/-- Prepend an optional member: present values become a member under the
given key, absent values contribute nothing. -/
def JsonObj.optCons (key : String) (val : Option Json) (rest : JsonObj) : JsonObj :=
  match val with
  | some v => .cons key v rest
  | none => rest

/-- The member list serde produces for a payload. -/
def SupabaseHTTPError.serializeFields (e : SupabaseHTTPError) : JsonObj :=
  .cons "code" (.num e.code) (
    JsonObj.optCons "error_code" (e.error_code.map Json.str) (
      .cons "msg" (.str e.message) (
        JsonObj.optCons "internal_error" e.internal_error (
          JsonObj.optCons "internal_message" e.internal_message (
            JsonObj.optCons "error_id" (e.error_id.map Json.str) .nil)))))

/-- serde serialization of a payload to a JSON value. -/
def SupabaseHTTPError.serialize (e : SupabaseHTTPError) : Json :=
  .obj e.serializeFields

/-!
Deserialization, as derived by serde: visit the members of a JSON
object in order, filling one slot per known key; a duplicate known key
is an error, an unknown key is ignored (no deny_unknown_fields); after
the visit a missing required field is an error and a missing optional
field becomes none. Option fields treat null as absent; the i32 field
requires an integer in i32 range.
-/

/-- Partial state of the field visitor: one slot per struct field,
none while the corresponding key has not been seen. -/
structure DeState where
  code : Option Int
  error_code : Option (Option String)
  msg : Option String
  internal_error : Option (Option Json)
  internal_message : Option (Option Json)
  error_id : Option (Option String)

/-- The visitor state before any member has been seen. -/
def DeState.init : DeState := ⟨none, none, none, none, none, none⟩

/-- Deserialize an i32: an integer JSON number within i32 bounds. -/
def deI32 (v : Json) : Except String Int :=
  match v with
  | .num n =>
      if -2147483648 ≤ n ∧ n ≤ 2147483647 then .ok n
      else .error "invalid value: integer out of range of i32"
  | _ => .error "invalid type: expected i32"

/-- Deserialize a String: a JSON string. -/
def deString (v : Json) : Except String String :=
  match v with
  | .str s => .ok s
  | _ => .error "invalid type: expected a string"

/-- Deserialize an Option<String>: null is none, a string is some. -/
def deOptString (v : Json) : Except String (Option String) :=
  match v with
  | .null => .ok none
  | .str s => .ok (some s)
  | _ => .error "invalid type: expected a string"

/-- Deserialize an Option<serde_json::Value>: null is none, any other
value is some of itself. -/
def deOptValue (v : Json) : Except String (Option Json) :=
  match v with
  | .null => .ok none
  | v => .ok (some v)

/-- Visit one member: fill the slot of a known key, reject a duplicate,
ignore an unknown key. -/
def deField (st : DeState) (k : String) (v : Json) : Except String DeState :=
  if k = "code" then
    match st.code with
    | some _ => .error "duplicate field code"
    | none => (deI32 v).map fun n => { st with code := some n }
  else if k = "error_code" then
    match st.error_code with
    | some _ => .error "duplicate field error_code"
    | none => (deOptString v).map fun s => { st with error_code := some s }
  else if k = "msg" then
    match st.msg with
    | some _ => .error "duplicate field msg"
    | none => (deString v).map fun s => { st with msg := some s }
  else if k = "internal_error" then
    match st.internal_error with
    | some _ => .error "duplicate field internal_error"
    | none => (deOptValue v).map fun j => { st with internal_error := some j }
  else if k = "internal_message" then
    match st.internal_message with
    | some _ => .error "duplicate field internal_message"
    | none => (deOptValue v).map fun j => { st with internal_message := some j }
  else if k = "error_id" then
    match st.error_id with
    | some _ => .error "duplicate field error_id"
    | none => (deOptString v).map fun s => { st with error_id := some s }
  else .ok st

/-- Visit all members in order, stopping at the first error. -/
def deFields (st : DeState) : JsonObj → Except String DeState
  | .nil => .ok st
  | .cons k v tl =>
      match deField st k v with
      | .error e => .error e
      | .ok st2 => deFields st2 tl

/-- Close the visit: required fields must have been seen, optional
fields default to none. -/
def DeState.finish (st : DeState) : Except String SupabaseHTTPError :=
  match st.code with
  | none => .error "missing field code"
  | some c =>
      match st.msg with
      | none => .error "missing field msg"
      | some m =>
          .ok ⟨c, st.error_code.getD none, m, st.internal_error.getD none,
               st.internal_message.getD none, st.error_id.getD none⟩

/-- serde deserialization of a payload from a JSON value. -/
def SupabaseHTTPError.deserialize (v : Json) : Except String SupabaseHTTPError :=
  match v with
  | .obj fields =>
      match deFields DeState.init fields with
      | .error e => .error e
      | .ok st => st.finish
  | _ => .error "invalid type: expected struct SupabaseHTTPError"

/-- The keys the derived deserializer recognizes. -/
def knownKeys : List String :=
  ["code", "error_code", "msg", "internal_error", "internal_message", "error_id"]

/-- Whether every key of the object lies outside the recognized set. -/
def JsonObj.allUnknownKeys : JsonObj → Bool
  | .nil => true
  | .cons k _ tl => !(knownKeys.contains k) && JsonObj.allUnknownKeys tl

/-!
A second rendering of the payload, written from the words of the spec
(section 4.1): a list of segments assembled in the fixed order given
there, each optional segment contributed only when its field is
present, joined into one string. This definition follows the spec text
and is compared with SupabaseHTTPError.display, which follows the
source.
-/

/-- The segments of the spec rendering algorithm, in the order of the
numbered list of the spec. -/
def renderSpecSegments (e : SupabaseHTTPError) : List String :=
  ["Status Code " ++ toString e.code]
  ++ (match e.error_code with
      | some error_code => [" (" ++ error_code ++ ")"]
      | none => [])
  ++ (match e.error_id with
      | some error_id => [" [Error ID: " ++ error_id ++ "]"]
      | none => [])
  ++ (match e.internal_message with
      | some internal_message => ["\n" ++ "Internal message: " ++ internal_message.render]
      | none => [])
  ++ (match e.internal_error with
      | some internal_error => ["\n" ++ "Internal error: " ++ internal_error.render]
      | none => [])
  ++ ["\n" ++ "Message: " ++ e.message]

/-- The spec rendering: the segments joined in order. -/
def renderSpec (e : SupabaseHTTPError) : String :=
  String.join (renderSpecSegments e)

/-!
Helper lemmas shared by the claim theorems below.
-/

/-- Merging a newline with the literal head of the message segment. -/
theorem nl_message_merge (s : String) :
    "\n" ++ ("Message: " ++ s) = "\nMessage: " ++ s := by
  rw [← String.append_assoc]; rfl

/-- Merging a newline with the literal head of the internal message
segment. -/
theorem nl_internal_message_merge (s : String) :
    "\n" ++ ("Internal message: " ++ s) = "\nInternal message: " ++ s := by
  rw [← String.append_assoc]; rfl

/-- Merging a newline with the literal head of the internal error
segment. -/
theorem nl_internal_error_merge (s : String) :
    "\n" ++ ("Internal error: " ++ s) = "\nInternal error: " ++ s := by
  rw [← String.append_assoc]; rfl

/-- Inversion of a successful Except.map. -/
theorem except_map_ok {α β ε : Type} (f : α → β) (y : Except ε α) (b : β)
    (h : y.map f = .ok b) : ∃ a, y = .ok a ∧ b = f a := by
  cases y with
  | error e => exact Except.noConfusion h
  | ok a => exact ⟨a, rfl, (Except.ok.inj h).symm⟩

/-- A member with an unrecognized key leaves the visitor state
untouched. -/
theorem deField_unknown (st : DeState) (k : String) (v : Json)
    (h : knownKeys.contains k = false) : deField st k v = .ok st := by
  simp [knownKeys] at h
  obtain ⟨h1, h2, h3, h4, h5, h6⟩ := h
  simp [deField, h1, h2, h3, h4, h5, h6]

/-- An object all of whose keys are unrecognized leaves the visitor
state untouched. -/
theorem deFields_allUnknown (st : DeState) (fs : JsonObj)
    (h : fs.allUnknownKeys = true) : deFields st fs = .ok st :=
  match fs with
  | .nil => rfl
  | .cons k v tl => by
      simp [JsonObj.allUnknownKeys] at h
      simp [deFields, deField_unknown st k v (by simp [h.1]),
        deFields_allUnknown st tl h.2]

/-- The visitor processes a concatenation left part first. -/
theorem deFields_append (st : DeState) (a b : JsonObj) :
    deFields st (a.append b) =
      match deFields st a with
      | .ok st2 => deFields st2 b
      | .error e => .error e :=
  match a with
  | .nil => by simp [JsonObj.append, deFields]
  | .cons k v tl => by
      simp only [JsonObj.append, deFields]
      cases deField st k v with
      | error e => rfl
      | ok st2 => exact deFields_append st2 tl b

/-- A member whose key is not code leaves the code slot untouched. -/
theorem deField_code_stable (st : DeState) (k : String) (v : Json) (st2 : DeState)
    (hk : ¬(k = "code")) (h : deField st k v = .ok st2) : st2.code = st.code := by
  unfold deField at h
  split_ifs at h
  all_goals first
    | (rw [← Except.ok.inj h])
    | (split at h
       · exact Except.noConfusion h
       · obtain ⟨a, _, hb⟩ := except_map_ok _ _ _ h
         rw [hb])

/-- A member whose key is not msg leaves the msg slot untouched. -/
theorem deField_msg_stable (st : DeState) (k : String) (v : Json) (st2 : DeState)
    (hk : ¬(k = "msg")) (h : deField st k v = .ok st2) : st2.msg = st.msg := by
  unfold deField at h
  split_ifs at h
  all_goals first
    | (rw [← Except.ok.inj h])
    | (split at h
       · exact Except.noConfusion h
       · obtain ⟨a, _, hb⟩ := except_map_ok _ _ _ h
         rw [hb])

/-- An object without the code key leaves the code slot untouched. -/
theorem deFields_code_stable (st : DeState) (fs : JsonObj) (st2 : DeState)
    (hf : fs.hasKey "code" = false) (h : deFields st fs = .ok st2) :
    st2.code = st.code :=
  match fs with
  | .nil => by
      rw [← Except.ok.inj h]
  | .cons k v tl => by
      simp only [JsonObj.hasKey] at hf
      split_ifs at hf with hkk
      revert h
      unfold deFields
      cases hd : deField st k v with
      | error e => exact fun h => Except.noConfusion h
      | ok st1 =>
          intro h
          rw [deFields_code_stable st1 tl st2 hf h]
          exact deField_code_stable st k v st1 hkk hd

/-- An object without the msg key leaves the msg slot untouched. -/
theorem deFields_msg_stable (st : DeState) (fs : JsonObj) (st2 : DeState)
    (hf : fs.hasKey "msg" = false) (h : deFields st fs = .ok st2) :
    st2.msg = st.msg :=
  match fs with
  | .nil => by
      rw [← Except.ok.inj h]
  | .cons k v tl => by
      simp only [JsonObj.hasKey] at hf
      split_ifs at hf with hkk
      revert h
      unfold deFields
      cases hd : deField st k v with
      | error e => exact fun h => Except.noConfusion h
      | ok st1 =>
          intro h
          rw [deFields_msg_stable st1 tl st2 hf h]
          exact deField_msg_stable st k v st1 hkk hd

/-!
Claim theorems.
-/

/-- Claim C1, counterexample: with status 404 and message not found,
the AuthError variant does not render as the string given by the claim,
because the Display form of an http StatusCode is the numeric code
followed by the canonical reason phrase, not the numeric code alone. -/
theorem authError_404_literal_refuted :
    Error.display (.AuthError ⟨404⟩ "not found") ≠ "Error: 404: not found" := by
  decide

/-- Claim C1, amended: rendering the AuthError variant produces
exactly the fixed prefix, the Display form of the status code (numeric
code, space, canonical reason phrase), a colon and space, then the
message; in particular status 404 with message not found renders
exactly as the string below. -/
theorem authError_display_statusline :
    (∀ (status : StatusCode) (message : String),
      Error.display (.AuthError status message)
        = "Error: " ++ status.display ++ ": " ++ message)
    ∧ Error.display (.AuthError ⟨404⟩ "not found")
        = "Error: 404 Not Found: not found" :=
  ⟨fun _ _ => rfl, by decide⟩

/-- Claim C2: for every payload, the rendered string of the source
Display implementation coincides with the rendering algorithm stated by
the spec: the segments assembled in the fixed order, each optional
segment present exactly when its field is present, with the exact
punctuation and spacing of the spec. -/
theorem display_matches_spec_order (e : SupabaseHTTPError) :
    e.display = renderSpec e := by
  obtain ⟨c, ec, m, ie, im, eid⟩ := e
  cases ec <;> cases eid <;> cases im <;> cases ie <;>
    simp [SupabaseHTTPError.display, renderSpec, renderSpecSegments, String.join,
      String.append_assoc, String.empty_append, -String.reduceAppend,
      nl_message_merge, nl_internal_message_merge, nl_internal_error_merge]

/-- Claim C3: the Supabase variant renders exactly as its payload
renders, with no additional prefix, suffix, or wrapping. -/
theorem supabase_display_verbatim (p : SupabaseHTTPError) :
    Error.display (.Supabase p) = p.display := rfl

/-- Claim C4: every parameterless variant of the taxonomy renders to
its fixed literal string; in particular AlreadySignedUp renders exactly
as User Already Exists. -/
theorem parameterless_display_literals :
    Error.display .AlreadySignedUp = "User Already Exists"
    ∧ Error.display .WrongCredentials = "Invalid Credentials"
    ∧ Error.display .UserNotFound = "User Not Found"
    ∧ Error.display .NotAuthenticated = "Supabase Client not Authenticated"
    ∧ Error.display .MissingRefreshToken = "Missing Refresh Token"
    ∧ Error.display .WrongToken = "JWT Is Invalid"
    ∧ Error.display .InternalError = "Internal Error"
    ∧ Error.display .ParseUrlError = "Failed to parse URL" :=
  ⟨rfl, rfl, rfl, rfl, rfl, rfl, rfl, rfl⟩

/-- Claim C5: serializing a payload omits every optional field whose
value is absent: the serialized object carries no member under that key
at all. -/
theorem serialize_omits_absent_fields (p : SupabaseHTTPError) :
    (p.error_code = none → p.serializeFields.hasKey "error_code" = false)
    ∧ (p.internal_error = none → p.serializeFields.hasKey "internal_error" = false)
    ∧ (p.internal_message = none → p.serializeFields.hasKey "internal_message" = false)
    ∧ (p.error_id = none → p.serializeFields.hasKey "error_id" = false) := by
  obtain ⟨c, ec, m, ie, im, eid⟩ := p
  refine ⟨?_, ?_, ?_, ?_⟩
  · intro h
    subst h
    cases ie <;> cases im <;> cases eid <;> rfl
  · intro h
    subst h
    cases ec <;> cases im <;> cases eid <;> rfl
  · intro h
    subst h
    cases ec <;> cases ie <;> cases eid <;> rfl
  · intro h
    subst h
    cases ec <;> cases ie <;> cases im <;> rfl

/-- Claim C5, witness: a payload with an absent error_code serializes
to an object with no error_code key. -/
theorem serialize_omits_absent_fields_witness :
    (SupabaseHTTPError.serializeFields ⟨0, none, "m", none, none, none⟩).hasKey
      "error_code" = false :=
  (serialize_omits_absent_fields ⟨0, none, "m", none, none, none⟩).1 rfl

/-- Claim C6: deserializing the object with code 500 and msg oops
succeeds with code 500, message oops (wire key msg mapping to the
message field) and all four optional fields absent; and deserializing
any object without the code key, or without the msg key, fails. -/
theorem deserialize_requires_code_and_msg :
    (SupabaseHTTPError.deserialize
        (.obj (.cons "code" (.num 500) (.cons "msg" (.str "oops") .nil)))
      = .ok ⟨500, none, "oops", none, none, none⟩)
    ∧ (∀ fs : JsonObj, fs.hasKey "code" = false →
        (SupabaseHTTPError.deserialize (.obj fs)).isOk = false)
    ∧ (∀ fs : JsonObj, fs.hasKey "msg" = false →
        (SupabaseHTTPError.deserialize (.obj fs)).isOk = false) := by
  refine ⟨by rfl, ?_, ?_⟩
  · intro fs hf
    cases hd : deFields DeState.init fs with
    | error e => simp [SupabaseHTTPError.deserialize, hd, Except.isOk, Except.toBool]
    | ok st =>
        have hc : st.code = none := deFields_code_stable _ _ _ hf hd
        simp [SupabaseHTTPError.deserialize, hd, DeState.finish, hc, Except.isOk,
          Except.toBool]
  · intro fs hf
    cases hd : deFields DeState.init fs with
    | error e => simp [SupabaseHTTPError.deserialize, hd, Except.isOk, Except.toBool]
    | ok st =>
        have hm : st.msg = none := deFields_msg_stable _ _ _ hf hd
        cases hc : st.code <;>
          simp [SupabaseHTTPError.deserialize, hd, DeState.finish, hc, hm, Except.isOk,
            Except.toBool]

/-- Claim C6, witness: an object carrying only the msg member is
rejected, and an object carrying only the code member is rejected. -/
theorem deserialize_requires_code_and_msg_witness :
    ((SupabaseHTTPError.deserialize
        (.obj (.cons "msg" (.str "oops") .nil))).isOk = false)
    ∧ ((SupabaseHTTPError.deserialize
        (.obj (.cons "code" (.num 500) .nil))).isOk = false) :=
  ⟨deserialize_requires_code_and_msg.2.1 _ rfl,
   deserialize_requires_code_and_msg.2.2 _ rfl⟩

/-- Claim C7, counterexample: a fully populated payload whose
internal_error value is JSON null does not survive the round trip: the
present null value serializes to null, which deserializes back to an
absent field. -/
theorem roundtrip_null_internal_refuted :
    SupabaseHTTPError.deserialize
        (SupabaseHTTPError.serialize
          ⟨0, some "ec", "m", some .null, some (.str "im"), some "eid"⟩)
      ≠ .ok ⟨0, some "ec", "m", some .null, some (.str "im"), some "eid"⟩ :=
  fun h =>
    absurd (congrArg (fun r => match r with
      | Except.ok p => p.internal_error.isNone
      | Except.error _ => false) h) (by decide)

/-- Claim C7, amended: for every fully populated payload whose two
internal values are not the JSON null value, serializing and then
deserializing yields a payload equal in all six fields to the
original. The hypothesis on code is the bound guaranteed by its Rust
type i32. -/
theorem roundtrip_fully_populated_nonnull (c : Int) (ec m : String)
    (ie im : Json) (eid : String)
    (hrange : -2147483648 ≤ c ∧ c ≤ 2147483647)
    (hie : ie.isNull = false) (him : im.isNull = false) :
    SupabaseHTTPError.deserialize
        (SupabaseHTTPError.serialize ⟨c, some ec, m, some ie, some im, some eid⟩)
      = .ok ⟨c, some ec, m, some ie, some im, some eid⟩ := by
  cases ie <;> cases im <;> first
    | (simp [Json.isNull] at hie; done)
    | (simp [Json.isNull] at him; done)
    | simp +decide [SupabaseHTTPError.serialize, SupabaseHTTPError.serializeFields,
        JsonObj.optCons, SupabaseHTTPError.deserialize, deFields, deField, deI32,
        deString, deOptString, deOptValue, DeState.init, DeState.finish, Except.map,
        hrange]

/-- Claim C7, witness: a concrete fully populated payload with string
internal values round trips to itself. -/
theorem roundtrip_fully_populated_nonnull_witness :
    SupabaseHTTPError.deserialize
        (SupabaseHTTPError.serialize
          ⟨500, some "ec", "m", some (.str "ie"), some (.str "im"), some "eid"⟩)
      = .ok ⟨500, some "ec", "m", some (.str "ie"), some (.str "im"), some "eid"⟩ :=
  roundtrip_fully_populated_nonnull 500 "ec" "m" (.str "ie") (.str "im") "eid"
    (by decide) rfl rfl

/-- Claim C8: an object carrying the two required members plus any
unknown-keyed members, wherever those unknown members sit relative to
the required ones, deserializes successfully with the unknown members
ignored. -/
theorem deserialize_ignores_unknown_keys (pre mid post : JsonObj) (n : Int)
    (s : String)
    (hpre : pre.allUnknownKeys = true) (hmid : mid.allUnknownKeys = true)
    (hpost : post.allUnknownKeys = true)
    (hrange : -2147483648 ≤ n ∧ n ≤ 2147483647) :
    SupabaseHTTPError.deserialize
        (.obj (pre.append (.cons "code" (.num n)
          (mid.append (.cons "msg" (.str s) post)))))
      = .ok ⟨n, none, s, none, none, none⟩ := by
  have hpre2 : ∀ st, deFields st pre = .ok st :=
    fun st => deFields_allUnknown st pre hpre
  have hmid2 : ∀ st, deFields st mid = .ok st :=
    fun st => deFields_allUnknown st mid hmid
  have hpost2 : ∀ st, deFields st post = .ok st :=
    fun st => deFields_allUnknown st post hpost
  have h1 : deField DeState.init "code" (.num n)
      = .ok ⟨some n, none, none, none, none, none⟩ := by
    simp +decide [deField, deI32, DeState.init, Except.map, hrange]
  have h2 : deField ⟨some n, none, none, none, none, none⟩ "msg" (.str s)
      = .ok ⟨some n, none, some s, none, none, none⟩ := by
    simp +decide [deField, deString, Except.map]
  simp only [SupabaseHTTPError.deserialize, deFields_append, hpre2, hmid2, hpost2,
    deFields, h1, h2]
  rfl

/-- Claim C8, witness: an object with one unknown member before, one
between, and one after the required members deserializes successfully
with the unknown members ignored. -/
theorem deserialize_ignores_unknown_keys_witness :
    SupabaseHTTPError.deserialize
        (.obj ((JsonObj.cons "extra1" (.bool true) .nil).append
          (.cons "code" (.num 500)
            ((JsonObj.cons "extra2" .null .nil).append
              (.cons "msg" (.str "oops")
                (JsonObj.cons "extra3" (.str "x") .nil))))))
      = .ok ⟨500, none, "oops", none, none, none⟩ :=
  deserialize_ignores_unknown_keys
    (.cons "extra1" (.bool true) .nil) (.cons "extra2" .null .nil)
    (.cons "extra3" (.str "x") .nil) 500 "oops" rfl rfl rfl (by decide)

/-- Claim C9: each of the four lifting conversions stores the foreign
error value unchanged in its variant, and the stored value is exposed
unchanged as the underlying cause through the source chain. -/
theorem lift_preserves_cause (e1 : ReqwestError) (e2 : SerdeJsonError)
    (e3 : InvalidHeaderValueError) (e4 : VarError) :
    (Error.fromReqwest e1 = .NetworkError e1
      ∧ (Error.fromReqwest e1).sourceCause = some (.reqwest e1))
    ∧ (Error.fromSerdeJson e2 = .ParseError e2
      ∧ (Error.fromSerdeJson e2).sourceCause = some (.serdeJson e2))
    ∧ (Error.fromInvalidHeaderValue e3 = .InvalidHeaderValue e3
      ∧ (Error.fromInvalidHeaderValue e3).sourceCause = some (.header e3))
    ∧ (Error.fromVarError e4 = .InvalidEnvironmentVariable e4
      ∧ (Error.fromVarError e4).sourceCause = some (.envVar e4)) :=
  ⟨⟨rfl, rfl⟩, ⟨rfl, rfl⟩, ⟨rfl, rfl⟩, ⟨rfl, rfl⟩⟩

/-- Claim C10: each of the four lifting variants renders to its fixed
literal whatever the wrapped foreign error is, so the content of the
wrapped error never reaches the display string, while the wrapped
error itself stays reachable through the source chain. -/
theorem lift_display_fixed_literals (e1 : ReqwestError) (e2 : SerdeJsonError)
    (e3 : InvalidHeaderValueError) (e4 : VarError) :
    (Error.display (.NetworkError e1) = "Network Error"
      ∧ Error.sourceCause (.NetworkError e1) = some (.reqwest e1))
    ∧ (Error.display (.ParseError e2) = "Failed to Parse"
      ∧ Error.sourceCause (.ParseError e2) = some (.serdeJson e2))
    ∧ (Error.display (.InvalidHeaderValue e3) = "Header Value is Invalid"
      ∧ Error.sourceCause (.InvalidHeaderValue e3) = some (.header e3))
    ∧ (Error.display (.InvalidEnvironmentVariable e4)
          = "Environment Variable Unreadable"
      ∧ Error.sourceCause (.InvalidEnvironmentVariable e4) = some (.envVar e4)) :=
  ⟨⟨rfl, rfl⟩, ⟨rfl, rfl⟩, ⟨rfl, rfl⟩, ⟨rfl, rfl⟩⟩

end SupabaseAuth
